import Mathlib

/-!
Shallow embedding of the next-error-logger package: the log-entry data
model, the three storage adapters (raw-SQL, Prisma, Drizzle), the logger
facade, and the delete-many HTTP handler, together with theorems settling
the frozen claims about them.

External collaborators (the SQL executor, the Prisma client, the Drizzle
query builder, JS Date serialization) are modelled explicitly; each such
model carries a doc comment saying what external behavior it encodes.
-/

/-- Log severity levels, from src/types.ts. -/
inductive LogLevel
  | error
  | warn
  | info
  | debug
deriving DecidableEq, Repr

/-- The wire string of a log level (TS stores levels as strings). -/
def LogLevel.str : LogLevel → String
  | .error => "error"
  | .warn => "warn"
  | .info => "info"
  | .debug => "debug"

/-- Arbitrary JSON-object metadata, modelled as a list of key/value pairs. -/
def Metadata := List (String × String)
deriving DecidableEq

/-- A persisted log entry (ErrorLogEntry from src/types.ts). Timestamps are
epoch milliseconds, matching the JS Date value they carry. -/
structure ErrorLogEntry where
  id : String
  level : LogLevel
  message : String
  stack : Option String
  userId : Option String
  userEmail : Option String
  userName : Option String
  path : Option String
  method : Option String
  userAgent : Option String
  ip : Option String
  metadata : Option Metadata
  createdAt : Int
deriving DecidableEq

/-- The fields handed to DatabaseAdapter.create: an ErrorLogEntry without
id and createdAt (Omit in src/types.ts). -/
structure EntryInput where
  level : LogLevel
  message : String
  stack : Option String
  userId : Option String
  userEmail : Option String
  userName : Option String
  path : Option String
  method : Option String
  userAgent : Option String
  ip : Option String
  metadata : Option Metadata
deriving DecidableEq

/-- Sort column for findMany (orderBy in QueryOptions). -/
inductive OrderBy
  | createdAt
  | level
deriving DecidableEq

/-- Sort direction for findMany. -/
inductive Order
  | asc
  | desc
deriving DecidableEq

/-- order.toUpperCase() as used by the SQL adapter. -/
def Order.upper : Order → String
  | .asc => "ASC"
  | .desc => "DESC"

/-- QueryOptions from src/types.ts; every field optional, absent fields
modelled as none. Dates are epoch milliseconds. The level filter is kept
as its wire string, which is how the adapters consume it. -/
structure QueryOptions where
  page : Option Int := none
  limit : Option Int := none
  level : Option String := none
  userId : Option String := none
  search : Option String := none
  startDate : Option Int := none
  endDate : Option Int := none
  orderBy : Option OrderBy := none
  order : Option Order := none
deriving DecidableEq

/-- The filter argument of DatabaseAdapter.deleteMany. -/
structure DeleteManyOptions where
  before : Option Int := none
  level : Option String := none
deriving DecidableEq

/-- JS string truthiness on an optional string: undefined and the empty
string are falsy, used for the `if (x)` guards in the adapters and for
the `x || null` normalizations in the facade. -/
def orNull : Option String → Option String
  | some "" => none
  | x => x

/-- Models Date.prototype.toISOString as an injective rendering of the
epoch-milliseconds value; the concrete ISO-8601 formatting is done by the
JS runtime, outside this repository. -/
def jsToISOString (ms : Int) : String := "iso:" ++ toString ms

/-- SQL dialect identifier (SQLAdapterConfig.dialect in src/adapters/sql.ts). -/
inductive Dialect
  | postgres
  | mysql
  | sqlite
deriving DecidableEq

/-- A value passed through a query parameter array: a string or SQL NULL. -/
inductive SqlParam
  | str (s : String)
  | null
deriving DecidableEq

/-- A row as returned by the SQL executor: the snake_case columns of the
error_logs table, plus the `count` column present in COUNT(*) result rows
(JS result rows are untyped records, so one shape carries both). The
driver is assumed to deliver created_at as a Date value (epoch ms). -/
structure DbRow where
  id : String := ""
  level : String := ""
  message : String := ""
  stack : Option String := none
  user_id : Option String := none
  user_email : Option String := none
  user_name : Option String := none
  path : Option String := none
  method : Option String := none
  user_agent : Option String := none
  ip : Option String := none
  metadata : Option Metadata := none
  created_at : Int := 0
  count : Option Int := none
deriving DecidableEq

/-- One round trip issued against the SQL executor, recorded so theorems
can talk about which statements an adapter call issues. -/
inductive SqlOp
  | query (sql : String) (params : List SqlParam)
  | execute (sql : String) (params : List SqlParam)
deriving DecidableEq

/-- The SQLExecutor interface of src/adapters/sql.ts, modelled as pure
response functions of the backend: query returns rows, execute returns an
affected-row count. -/
structure SQLExecutor where
  query : String → List SqlParam → List DbRow
  execute : String → List SqlParam → Int

/-- Placeholder generator of the SQL adapter (`ph` in createSQLAdapter). -/
def ph (dialect : Dialect) (index : Nat) : String :=
  match dialect with
  | .postgres => "$" ++ toString index
  | .mysql | .sqlite => "?"

/-- toCamelCase of src/adapters/sql.ts: maps a snake_case DB row to the
camelCase ErrorLogEntry shape. The level string is re-read as a LogLevel
(the TS code merely casts). -/
def toCamelCase (row : DbRow) : ErrorLogEntry :=
  { id := row.id
    level :=
      match row.level with
      | "warn" => LogLevel.warn
      | "info" => LogLevel.info
      | "debug" => LogLevel.debug
      | _ => LogLevel.error
    message := row.message
    stack := row.stack
    userId := row.user_id
    userEmail := row.user_email
    userName := row.user_name
    path := row.path
    method := row.method
    userAgent := row.user_agent
    ip := row.ip
    metadata := row.metadata
    createdAt := row.created_at }

/-- The WHERE-condition fragments and parameter list built by the SQL
adapter's findMany from the five filters, threading the placeholder
index exactly as the source does. -/
def sqlFindManyConds (dialect : Dialect) (level userId search : Option String)
    (startDate endDate : Option Int) : List String × List SqlParam :=
  let st0 : List String × List SqlParam × Nat := ([], [], 1)
  let st1 :=
    match orNull level with
    | some l => (st0.1 ++ ["level = " ++ ph dialect st0.2.2],
        st0.2.1 ++ [SqlParam.str l], st0.2.2 + 1)
    | none => st0
  let st2 :=
    match orNull userId with
    | some u => (st1.1 ++ ["user_id = " ++ ph dialect st1.2.2],
        st1.2.1 ++ [SqlParam.str u], st1.2.2 + 1)
    | none => st1
  let st3 :=
    match orNull search with
    | some s =>
        let pat := "%" ++ s ++ "%"
        (st2.1 ++ ["(\n          message ILIKE " ++ ph dialect st2.2.2 ++
            " OR\n          stack ILIKE " ++ ph dialect (st2.2.2 + 1) ++
            " OR\n          path ILIKE " ++ ph dialect (st2.2.2 + 2) ++
            " OR\n          user_email ILIKE " ++ ph dialect (st2.2.2 + 3) ++
            "\n        )"],
          st2.2.1 ++ [SqlParam.str pat, SqlParam.str pat, SqlParam.str pat,
            SqlParam.str pat], st2.2.2 + 4)
    | none => st2
  let st4 :=
    match startDate with
    | some d => (st3.1 ++ ["created_at >= " ++ ph dialect st3.2.2],
        st3.2.1 ++ [SqlParam.str (jsToISOString d)], st3.2.2 + 1)
    | none => st3
  let st5 :=
    match endDate with
    | some d => (st4.1 ++ ["created_at <= " ++ ph dialect st4.2.2],
        st4.2.1 ++ [SqlParam.str (jsToISOString d)], st4.2.2 + 1)
    | none => st4
  (st5.1, st5.2.1)

/-- The WHERE clause string of the SQL adapter's findMany. -/
def sqlWhereClause (conds : List String) : String :=
  if conds.length > 0 then "WHERE " ++ String.intercalate " AND " conds else ""

/-- The SELECT statement text built by the SQL adapter's findMany,
reproducing the source template literal byte for byte (limit and the
computed offset are interpolated into the text as numeric literals). -/
def sqlFindManySelectText (tableName whereClause orderColumn orderDirection : String)
    (limit offset : Int) : String :=
  "\n        SELECT * FROM " ++ tableName ++
    "\n        " ++ whereClause ++
    "\n        ORDER BY " ++ orderColumn ++ " " ++ orderDirection ++
    "\n        LIMIT " ++ toString limit ++ " OFFSET " ++ toString offset ++
    "\n      "

/-- The result shape of DatabaseAdapter.findMany. -/
structure FindManyResult where
  logs : List ErrorLogEntry
  total : Int
deriving DecidableEq

/-- findMany of createSQLAdapter (src/adapters/sql.ts): builds the SELECT
and COUNT statements from the options, runs both against the executor and
reshapes the rows; also returns the list of issued round trips. -/
def sqlFindMany (dialect : Dialect) (tableName : String) (ex : SQLExecutor)
    (options : QueryOptions) : FindManyResult × List SqlOp :=
  let page := options.page.getD 1
  let limit := options.limit.getD 50
  let cp := sqlFindManyConds dialect options.level options.userId options.search
    options.startDate options.endDate
  let whereClause := sqlWhereClause cp.1
  let orderColumn :=
    match options.orderBy.getD OrderBy.createdAt with
    | .level => "level"
    | .createdAt => "created_at"
  let orderDirection := (options.order.getD Order.desc).upper
  let offset := (page - 1) * limit
  let sql := sqlFindManySelectText tableName whereClause orderColumn
    orderDirection limit offset
  let countSql := "SELECT COUNT(*) as count FROM " ++ tableName ++ " " ++ whereClause
  let rows := ex.query sql cp.2
  let countResult := ex.query countSql cp.2
  ({ logs := rows.map toCamelCase
     total :=
       match countResult.head? with
       | some r => r.count.getD 0
       | none => 0 },
    [SqlOp.query sql cp.2, SqlOp.query countSql cp.2])

/-- findById of createSQLAdapter. -/
def sqlFindById (dialect : Dialect) (tableName : String) (ex : SQLExecutor)
    (id : String) : Option ErrorLogEntry × List SqlOp :=
  let sql := "SELECT * FROM " ++ tableName ++ " WHERE id = " ++ ph dialect 1
  let rows := ex.query sql [SqlParam.str id]
  (match rows.head? with
   | none => none
   | some r => some (toCamelCase r),
   [SqlOp.query sql [SqlParam.str id]])

/-- The single-row delete of createSQLAdapter: issues one DELETE statement
and returns void regardless of how many rows it affected. -/
def sqlDeleteOne (dialect : Dialect) (tableName : String) (ex : SQLExecutor)
    (id : String) : Unit × List SqlOp :=
  let sql := "DELETE FROM " ++ tableName ++ " WHERE id = " ++ ph dialect 1
  let _ := ex.execute sql [SqlParam.str id]
  ((), [SqlOp.execute sql [SqlParam.str id]])

/-- deleteMany of createSQLAdapter: builds the conjunctive filter from the
before/level options and short-circuits to 0 with no statement when no
condition was produced. -/
def sqlDeleteMany (dialect : Dialect) (tableName : String) (ex : SQLExecutor)
    (options : DeleteManyOptions) : Int × List SqlOp :=
  let st0 : List String × List SqlParam × Nat := ([], [], 1)
  let st1 :=
    match options.before with
    | some d => (st0.1 ++ ["created_at < " ++ ph dialect st0.2.2],
        st0.2.1 ++ [SqlParam.str (jsToISOString d)], st0.2.2 + 1)
    | none => st0
  let st2 :=
    match orNull options.level with
    | some l => (st1.1 ++ ["level = " ++ ph dialect st1.2.2],
        st1.2.1 ++ [SqlParam.str l], st1.2.2 + 1)
    | none => st1
  if st2.1.length = 0 then
    (0, [])
  else
    let sql := "DELETE FROM " ++ tableName ++ " WHERE " ++
      String.intercalate " AND " st2.1
    (ex.execute sql st2.2.1, [SqlOp.execute sql st2.2.1])

/-- Case-insensitive substring check: how Prisma evaluates
contains/mode:'insensitive'. Modelled from the Prisma client's documented
filter semantics; a null column never matches. -/
def ciContains (hay needle : String) : Bool :=
  decide (needle.toLower.data <:+: hay.toLower.data)

/-- ciContains lifted to a nullable column. -/
def ciContainsOpt (hay : Option String) (needle : String) : Bool :=
  match hay with
  | none => false
  | some h => ciContains h needle

/-- The where object the Prisma adapter assembles: each field is a filter
key that may or may not be present on the JS object. -/
structure PrismaWhere where
  level : Option String := none
  userId : Option String := none
  searchOR : Option String := none
  createdAtGte : Option Int := none
  createdAtLte : Option Int := none
  createdAtLt : Option Int := none
deriving DecidableEq

/-- Whether an entry matches a Prisma where object. Modelled from the
Prisma client's documented semantics: all present keys are conjoined; the
search key is the four-field OR of case-insensitive contains filters the
adapter builds. -/
def prismaMatches (w : PrismaWhere) (e : ErrorLogEntry) : Bool :=
  (match w.level with
   | none => true
   | some l => e.level.str == l) &&
  (match w.userId with
   | none => true
   | some u => e.userId == some u) &&
  (match w.searchOR with
   | none => true
   | some s =>
       ciContains e.message s || ciContainsOpt e.stack s ||
       ciContainsOpt e.path s || ciContainsOpt e.userEmail s) &&
  (match w.createdAtGte with
   | none => true
   | some d => decide (d ≤ e.createdAt)) &&
  (match w.createdAtLte with
   | none => true
   | some d => decide (e.createdAt ≤ d)) &&
  (match w.createdAtLt with
   | none => true
   | some d => decide (e.createdAt < d))

/-- The in-memory state of the Prisma-managed ErrorLog table. -/
structure PrismaDb where
  rows : List ErrorLogEntry
deriving DecidableEq

/-- Insertion sort used to model backend ordering (stable). -/
def sortedInsert (le : ErrorLogEntry → ErrorLogEntry → Bool) (x : ErrorLogEntry) :
    List ErrorLogEntry → List ErrorLogEntry
  | [] => [x]
  | y :: ys => if le x y then x :: y :: ys else y :: sortedInsert le x ys

/-- Stable sort of entries by the requested column and direction. -/
def sortEntries (ob : OrderBy) (ord : Order) (l : List ErrorLogEntry) :
    List ErrorLogEntry :=
  let key : ErrorLogEntry → ErrorLogEntry → Bool := fun a b =>
    match ob, ord with
    | .createdAt, .asc => decide (a.createdAt ≤ b.createdAt)
    | .createdAt, .desc => decide (b.createdAt ≤ a.createdAt)
    | .level, .asc => decide (a.level.str ≤ b.level.str)
    | .level, .desc => decide (b.level.str ≤ a.level.str)
  l.foldr (sortedInsert key) []

/-- prisma.errorLog.count: number of rows matching the where object.
Modelled from the Prisma client's documented behavior. -/
def prismaClientCount (w : PrismaWhere) (db : PrismaDb) : Int :=
  ((db.rows.filter (prismaMatches w)).length : Int)

/-- prisma.errorLog.findMany with where/orderBy/skip/take. Modelled from
the Prisma client's documented behavior. -/
def prismaClientFindMany (w : PrismaWhere) (ob : OrderBy) (ord : Order)
    (skip take : Int) (db : PrismaDb) : List ErrorLogEntry :=
  (((sortEntries ob ord (db.rows.filter (prismaMatches w)))).drop skip.toNat).take take.toNat

/-- prisma.errorLog.findUnique by id. -/
def prismaClientFindUnique (id : String) (db : PrismaDb) : Option ErrorLogEntry :=
  db.rows.find? (fun e => e.id == id)

/-- prisma.errorLog.delete: modelled from the Prisma client's documented
behavior — it rejects with a record-not-found error (code P2025) when no
row has the given id, and otherwise removes the row. -/
def prismaClientDeleteOne (id : String) (db : PrismaDb) :
    Except String PrismaDb :=
  if db.rows.any (fun e => e.id == id) then
    Except.ok { rows := db.rows.filter (fun e => !(e.id == id)) }
  else
    Except.error "Record to delete does not exist."

/-- prisma.errorLog.deleteMany: removes every row matching the where
object (an empty where matches every row) and reports the count. Modelled
from the Prisma client's documented behavior. -/
def prismaClientDeleteMany (w : PrismaWhere) (db : PrismaDb) :
    Int × PrismaDb :=
  let matched := db.rows.filter (prismaMatches w)
  ((matched.length : Int),
    { rows := db.rows.filter (fun e => !(prismaMatches w e)) })

/-- The where object built by the Prisma adapter's findMany from the five
filters (src/adapters/prisma.ts). -/
def buildPrismaWhere (level userId search : Option String)
    (startDate endDate : Option Int) : PrismaWhere :=
  { level := orNull level
    userId := orNull userId
    searchOR := orNull search
    createdAtGte := startDate
    createdAtLte := endDate
    createdAtLt := none }

/-- findMany of createPrismaAdapter: builds the where object, then issues
the paged findMany and the count in parallel. -/
def prismaFindMany (options : QueryOptions) (db : PrismaDb) : FindManyResult :=
  let page := options.page.getD 1
  let limit := options.limit.getD 50
  let w := buildPrismaWhere options.level options.userId options.search
    options.startDate options.endDate
  { logs := prismaClientFindMany w (options.orderBy.getD OrderBy.createdAt)
      (options.order.getD Order.desc) ((page - 1) * limit) limit db
    total := prismaClientCount w db }

/-- findById of createPrismaAdapter. -/
def prismaFindById (id : String) (db : PrismaDb) : Option ErrorLogEntry :=
  prismaClientFindUnique id db

/-- delete of createPrismaAdapter: forwards to the client delete without
catching, so a missing id propagates the client's rejection. -/
def prismaDeleteOne (id : String) (db : PrismaDb) : Except String PrismaDb :=
  prismaClientDeleteOne id db

/-- deleteMany of createPrismaAdapter: assembles the where object from the
before/level filters (truthiness guards as in the source) and forwards it
to the client unconditionally — there is no empty-filter short circuit. -/
def prismaDeleteMany (options : DeleteManyOptions) (db : PrismaDb) :
    Int × PrismaDb :=
  let w0 : PrismaWhere := {}
  let w1 :=
    match options.before with
    | some d => { w0 with createdAtLt := some d }
    | none => w0
  let w2 :=
    match orNull options.level with
    | some l => { w1 with level := some l }
    | none => w1
  prismaClientDeleteMany w2 db

/-- The columns of the Drizzle errorLogs table referenced by the adapter. -/
inductive DCol
  | id
  | level
  | userId
  | message
  | stack
  | path
  | userEmail
  | createdAt
deriving DecidableEq

/-- A Drizzle filter condition as assembled by the adapter from the
operator functions it is constructed with (eq, and, or, like, lt, gte,
lte from drizzle-orm). -/
inductive DCond
  | eqc (col : DCol) (v : String)
  | likec (col : DCol) (pattern : String)
  | ltc (d : Int)
  | gtec (d : Int)
  | ltec (d : Int)
  | andc (l : List DCond)
  | orc (l : List DCond)

/-- SQL LIKE pattern matching over characters (wildcards % and _).
Modelled from the SQL standard semantics the Drizzle like operator
compiles to. -/
def likeMatch : List Char → List Char → Bool
  | [], [] => true
  | '%' :: ps, s =>
      likeMatch ps s ||
        (match s with
         | [] => false
         | _ :: s2 => likeMatch ('%' :: ps) s2)
  | '_' :: ps, _ :: s2 => likeMatch ps s2
  | c :: ps, d :: s2 => c == d && likeMatch ps s2
  | _, _ => false
termination_by p s => p.length + s.length
decreasing_by all_goals simp_arith [*]

/-- The string value of a text column of an entry (none encodes SQL NULL). -/
def colVal (e : ErrorLogEntry) : DCol → Option String
  | .id => some e.id
  | .level => some e.level.str
  | .userId => e.userId
  | .message => some e.message
  | .stack => e.stack
  | .path => e.path
  | .userEmail => e.userEmail
  | .createdAt => none

mutual

/-- Evaluation of a Drizzle condition on an entry; the date operators
always target the created_at column, the only column the adapter applies
them to. A NULL column fails eq and like, as in SQL. -/
def evalD (e : ErrorLogEntry) : DCond → Bool
  | .eqc c v => colVal e c == some v
  | .likec c pat =>
      match colVal e c with
      | none => false
      | some s => likeMatch pat.data s.data
  | .ltc d => decide (e.createdAt < d)
  | .gtec d => decide (d ≤ e.createdAt)
  | .ltec d => decide (e.createdAt ≤ d)
  | .andc l => evalDAll e l
  | .orc l => evalDAny e l

/-- Conjunction of a condition list on an entry. -/
def evalDAll (e : ErrorLogEntry) : List DCond → Bool
  | [] => true
  | c :: cs => evalD e c && evalDAll e cs

/-- Disjunction of a condition list on an entry. -/
def evalDAny (e : ErrorLogEntry) : List DCond → Bool
  | [] => false
  | c :: cs => evalD e c || evalDAny e cs

end

/-- The in-memory state of the Drizzle-managed error_logs table. -/
structure DrizzleDb where
  rows : List ErrorLogEntry
deriving DecidableEq

/-- A backend delete statement issued through the Drizzle builder,
recorded so theorems can talk about what reached the database. -/
inductive DrizzleOp
  | deleteWhere (cond : DCond)

/-- The conditions array built by the Drizzle adapter's findMany
(truthiness guards exactly as in the source). -/
def drizzleFindManyConds (level userId search : Option String)
    (startDate endDate : Option Int) : List DCond :=
  (match orNull level with
   | some l => [DCond.eqc DCol.level l]
   | none => []) ++
  (match orNull userId with
   | some u => [DCond.eqc DCol.userId u]
   | none => []) ++
  (match orNull search with
   | some s =>
       [DCond.orc [DCond.likec DCol.message ("%" ++ s ++ "%"),
         DCond.likec DCol.stack ("%" ++ s ++ "%"),
         DCond.likec DCol.path ("%" ++ s ++ "%"),
         DCond.likec DCol.userEmail ("%" ++ s ++ "%")]]
   | none => []) ++
  (match startDate with
   | some d => [DCond.gtec d]
   | none => []) ++
  (match endDate with
   | some d => [DCond.ltec d]
   | none => [])

/-- db.$count(table, cond?): rows matching the condition (all rows when no
condition is supplied). Modelled from the Drizzle query builder. -/
def drizzleClientCount (cond : Option DCond) (db : DrizzleDb) : Int :=
  ((db.rows.filter (fun e =>
    match cond with
    | none => true
    | some c => evalD e c)).length : Int)

/-- findMany of createDrizzleAdapter: select().from(table).where(...)
.orderBy(...).limit(limit).offset((page-1)*limit) plus db.$count. -/
def drizzleFindMany (options : QueryOptions) (db : DrizzleDb) : FindManyResult :=
  let page := options.page.getD 1
  let limit := options.limit.getD 50
  let conds := drizzleFindManyConds options.level options.userId options.search
    options.startDate options.endDate
  let whereCondition : Option DCond :=
    if conds.length > 0 then some (DCond.andc conds) else none
  let filtered := db.rows.filter (fun e =>
    match whereCondition with
    | none => true
    | some c => evalD e c)
  let sorted := sortEntries (options.orderBy.getD OrderBy.createdAt)
    (options.order.getD Order.desc) filtered
  { logs := (sorted.drop ((page - 1) * limit).toNat).take limit.toNat
    total := drizzleClientCount whereCondition db }

/-- findById of createDrizzleAdapter: where(eq(table.id, id)).limit(1),
then results[0] || null. -/
def drizzleFindById (id : String) (db : DrizzleDb) : Option ErrorLogEntry :=
  ((db.rows.filter (fun e => evalD e (DCond.eqc DCol.id id))).take 1).head?

/-- delete of createDrizzleAdapter: one unconditional delete-where round
trip; a missing id simply affects zero rows. -/
def drizzleDeleteOne (id : String) (db : DrizzleDb) : DrizzleDb × List DrizzleOp :=
  ({ rows := db.rows.filter (fun e => !(evalD e (DCond.eqc DCol.id id))) },
    [DrizzleOp.deleteWhere (DCond.eqc DCol.id id)])

/-- deleteMany of createDrizzleAdapter: builds the conjunctive condition
from the before/level filters and short-circuits to 0 with no statement
when no condition was produced. -/
def drizzleDeleteMany (options : DeleteManyOptions) (db : DrizzleDb) :
    Int × DrizzleDb × List DrizzleOp :=
  let conds : List DCond :=
    (match options.before with
     | some d => [DCond.ltc d]
     | none => []) ++
    (match orNull options.level with
     | some l => [DCond.eqc DCol.level l]
     | none => [])
  let whereCondition : Option DCond :=
    if conds.length > 0 then some (DCond.andc conds) else none
  match whereCondition with
  | none => (0, db, [])
  | some c =>
      (((db.rows.filter (fun e => evalD e c)).length : Int),
        { rows := db.rows.filter (fun e => !(evalD e c)) },
        [DrizzleOp.deleteWhere c])

/-- The user shape produced by an auth adapter. -/
structure JsUser where
  id : String
  email : Option String := none
  name : Option String := none
deriving DecidableEq

/-- A JS Error value as seen by the facade: message plus optional stack. -/
structure JsError where
  message : String
  stack : Option String := none
deriving DecidableEq

/-- RequestContext from src/types.ts. -/
structure RequestContext where
  path : Option String := none
  method : Option String := none
  userAgent : Option String := none
  ip : Option String := none
  metadata : Option Metadata := none
deriving DecidableEq

/-- LogResult from src/types.ts. -/
structure LogResult where
  success : Bool
  entry : Option ErrorLogEntry := none
  error : Option String := none
deriving DecidableEq

/-- The AuthAdapter contract as the facade consumes it: one getUser call
that either yields a user (or null) or rejects. -/
structure AuthAdapterModel where
  getUser : Except String (Option JsUser)

/-- The storage adapter as the facade and the HTTP handlers consume it:
each operation either yields its result or rejects with an error
message. Only the operations the claims exercise are modelled. -/
structure StorageModel where
  create : EntryInput → Except String ErrorLogEntry
  deleteMany : DeleteManyOptions → Except String Int

/-- ErrorLoggerConfig from src/types.ts, after initialization defaults. -/
structure ErrorLoggerConfig where
  adapter : StorageModel
  authAdapter : Option AuthAdapterModel := none
  retentionDays : Int := 30
  levels : Option (List LogLevel) := none
  consoleInDev : Bool := true

/-- initErrorLogger (src/logger.ts): spreads the caller's configuration
over the defaults consoleInDev=true, retentionDays=30 and stores it as
the process-wide state. -/
def initErrorLogger (adapter : StorageModel) (authAdapter : Option AuthAdapterModel)
    (retentionDays : Option Int) (levels : Option (List LogLevel))
    (consoleInDev : Option Bool) : ErrorLoggerConfig :=
  { adapter := adapter
    authAdapter := authAdapter
    retentionDays := retentionDays.getD 30
    levels := levels
    consoleInDev := consoleInDev.getD true }

/-- The message of the error getConfig throws before initialization. -/
def initErrMsg : String :=
  "[@vinetechke/next-error-logger] Logger not initialized. Call initErrorLogger() first."

/-- The levels allow-list check of log() step 1:
cfg.levels && !cfg.levels.includes(level). -/
def levelAllowed (cfg : ErrorLoggerConfig) (level : LogLevel) : Bool :=
  match cfg.levels with
  | none => true
  | some ls => ls.contains level

/-- The user-context resolution of log(): call the auth adapter when one
is configured and silently treat any rejection as an anonymous user. -/
def resolveUser (cfg : ErrorLoggerConfig) : Option JsUser :=
  match cfg.authAdapter with
  | none => none
  | some a =>
      match a.getUser with
      | Except.ok u => u
      | Except.error _ => none

/-- The entry-fields object literal log() passes to adapter.create, with
every JS `x || null` normalization made explicit. -/
def assembleEntry (level : LogLevel) (message : String) (err : Option JsError)
    (user : Option JsUser) (context : Option RequestContext) : EntryInput :=
  { level := level
    message := message
    stack := orNull (err.bind (fun e => e.stack))
    userId := orNull (user.map (fun u => u.id))
    userEmail := orNull (user.bind (fun u => u.email))
    userName := orNull (user.bind (fun u => u.name))
    path := orNull (context.bind (fun c => c.path))
    method := orNull (context.bind (fun c => c.method))
    userAgent := orNull (context.bind (fun c => c.userAgent))
    ip := orNull (context.bind (fun c => c.ip))
    metadata := context.bind (fun c => c.metadata) }

/-- The internal log() of src/logger.ts over the process state (none =
initErrorLogger never called). The whole body sits in a try/catch, so the
uninitialized getConfig throw and any create rejection both surface as a
returned failure result, never as an exception. Also returns the list of
create calls made, so theorems can talk about storage writes. Console
mirroring only writes to the console and is not modelled. -/
def log (st : Option ErrorLoggerConfig) (level : LogLevel) (message : String)
    (err : Option JsError) (context : Option RequestContext) :
    LogResult × List EntryInput :=
  match st with
  | none => ({ success := false, entry := none, error := some initErrMsg }, [])
  | some cfg =>
      if !(levelAllowed cfg level) then
        ({ success := true, entry := none, error := none }, [])
      else
        let inp := assembleEntry level message err (resolveUser cfg) context
        match cfg.adapter.create inp with
        | Except.ok e =>
            ({ success := true, entry := some e, error := none }, [inp])
        | Except.error m =>
            ({ success := false, entry := none, error := some m }, [inp])

/-- errorLogger.error. -/
def errorLoggerError (st : Option ErrorLoggerConfig) (message : String)
    (err : Option JsError) (context : Option RequestContext) :
    LogResult × List EntryInput :=
  log st LogLevel.error message err context

/-- errorLogger.warn. -/
def errorLoggerWarn (st : Option ErrorLoggerConfig) (message : String)
    (err : Option JsError) (context : Option RequestContext) :
    LogResult × List EntryInput :=
  log st LogLevel.warn message err context

/-- errorLogger.info (no Error parameter). -/
def errorLoggerInfo (st : Option ErrorLoggerConfig) (message : String)
    (context : Option RequestContext) : LogResult × List EntryInput :=
  log st LogLevel.info message none context

/-- errorLogger.debug (no Error parameter). -/
def errorLoggerDebug (st : Option ErrorLoggerConfig) (message : String)
    (context : Option RequestContext) : LogResult × List EntryInput :=
  log st LogLevel.debug message none context

/-- A web Request as the facade reads it: the parsed URL pathname (URL
parsing is the runtime's), the method, and the header map. -/
structure JsRequest where
  urlPathname : String
  method : String
  headers : List (String × String)

/-- Headers.get: case-insensitive lookup returning null when absent. -/
def headerGet (headers : List (String × String)) (name : String) : Option String :=
  (headers.find? (fun p => p.1.toLower == name)).map (fun p => p.2)

/-- JS String.prototype.split(',')[0]: the characters before the first
comma (the whole string when there is none). -/
def jsSplitFirstComma (s : String) : String :=
  String.mk (s.data.takeWhile (fun c => !(c == ',')))

/-- JS String.prototype.trim: strip leading and trailing whitespace. -/
def jsTrim (s : String) : String :=
  String.mk ((s.data.dropWhile Char.isWhitespace).reverse.dropWhile
    Char.isWhitespace).reverse

/-- extractRequestContext of src/logger.ts: pathname, method, user-agent,
and client IP preferring the first trimmed x-forwarded-for entry, then
x-real-ip (empty strings fall through, as with JS ||). -/
def extractRequestContext (r : JsRequest) : RequestContext :=
  { path := some r.urlPathname
    method := some r.method
    userAgent := orNull (headerGet r.headers "user-agent")
    ip :=
      match orNull ((headerGet r.headers "x-forwarded-for").map
          (fun s => jsTrim (jsSplitFirstComma s))) with
      | some v => some v
      | none => orNull (headerGet r.headers "x-real-ip")
    metadata := none }

/-- The context object a request-bound variant passes to log():
{...baseContext, metadata}. -/
def requestContextWith (r : JsRequest) (metadata : Option Metadata) : RequestContext :=
  { extractRequestContext r with metadata := metadata }

/-- errorLogger.fromRequest(request).error. -/
def fromRequestError (st : Option ErrorLoggerConfig) (r : JsRequest)
    (message : String) (err : Option JsError) (metadata : Option Metadata) :
    LogResult × List EntryInput :=
  log st LogLevel.error message err (some (requestContextWith r metadata))

/-- errorLogger.fromRequest(request).warn. -/
def fromRequestWarn (st : Option ErrorLoggerConfig) (r : JsRequest)
    (message : String) (metadata : Option Metadata) :
    LogResult × List EntryInput :=
  log st LogLevel.warn message none (some (requestContextWith r metadata))

/-- errorLogger.fromRequest(request).info. -/
def fromRequestInfo (st : Option ErrorLoggerConfig) (r : JsRequest)
    (message : String) (metadata : Option Metadata) :
    LogResult × List EntryInput :=
  log st LogLevel.info message none (some (requestContextWith r metadata))

/-- errorLogger.fromRequest(request).debug. -/
def fromRequestDebug (st : Option ErrorLoggerConfig) (r : JsRequest)
    (message : String) (metadata : Option Metadata) :
    LogResult × List EntryInput :=
  log st LogLevel.debug message none (some (requestContextWith r metadata))

/-- The entry-fields object literal the withUser variants pass to
adapter.create: userId is taken from the supplied user without a
truthiness guard, email/name with || null. -/
def assembleWithUser (level : LogLevel) (message : String) (err : Option JsError)
    (user : JsUser) (context : Option RequestContext) : EntryInput :=
  { level := level
    message := message
    stack := orNull (err.bind (fun e => e.stack))
    userId := some user.id
    userEmail := orNull user.email
    userName := orNull user.name
    path := orNull (context.bind (fun c => c.path))
    method := orNull (context.bind (fun c => c.method))
    userAgent := orNull (context.bind (fun c => c.userAgent))
    ip := orNull (context.bind (fun c => c.ip))
    metadata := context.bind (fun c => c.metadata) }

/-- errorLogger.withUser(user).error: getConfig is called outside the
try block, so an uninitialized state propagates the thrown error to the
caller (an Except.error result), while a create rejection inside the try
is caught and returned as a failure result. Note no levels allow-list
check is performed on this path. -/
def withUserError (st : Option ErrorLoggerConfig) (user : JsUser)
    (message : String) (err : Option JsError) (context : Option RequestContext) :
    Except String (LogResult × List EntryInput) :=
  match st with
  | none => Except.error initErrMsg
  | some cfg =>
      let inp := assembleWithUser LogLevel.error message err user context
      match cfg.adapter.create inp with
      | Except.ok e =>
          Except.ok ({ success := true, entry := some e, error := none }, [inp])
      | Except.error m =>
          Except.ok ({ success := false, entry := none, error := some m }, [inp])

/-- errorLogger.withUser(user).warn (no Error parameter, stack null). -/
def withUserWarn (st : Option ErrorLoggerConfig) (user : JsUser)
    (message : String) (context : Option RequestContext) :
    Except String (LogResult × List EntryInput) :=
  match st with
  | none => Except.error initErrMsg
  | some cfg =>
      let inp := assembleWithUser LogLevel.warn message none user context
      match cfg.adapter.create inp with
      | Except.ok e =>
          Except.ok ({ success := true, entry := some e, error := none }, [inp])
      | Except.error m =>
          Except.ok ({ success := false, entry := none, error := some m }, [inp])

/-- errorLogger.withUser(user).info (no Error parameter, stack null). -/
def withUserInfo (st : Option ErrorLoggerConfig) (user : JsUser)
    (message : String) (context : Option RequestContext) :
    Except String (LogResult × List EntryInput) :=
  match st with
  | none => Except.error initErrMsg
  | some cfg =>
      let inp := assembleWithUser LogLevel.info message none user context
      match cfg.adapter.create inp with
      | Except.ok e =>
          Except.ok ({ success := true, entry := some e, error := none }, [inp])
      | Except.error m =>
          Except.ok ({ success := false, entry := none, error := some m }, [inp])

/-- The {before?, level?} JSON body of the delete-many endpoint. -/
structure DeleteBody where
  before : Option String := none
  level : Option String := none
deriving DecidableEq

/-- The incoming request as the delete-many handler consumes it: the
outcome of request.json() (Except.error models a missing or malformed
body, whose rejection the handler converts to an empty object). -/
structure ApiRequest where
  jsonBody : Except String DeleteBody

/-- The responses the delete-many handler can produce. -/
inductive ApiResponse
  | unauthorized
  | notInitialized
  | failedDelete
  | deletedJson (n : Int)
deriving DecidableEq

/-- The deleteMany filter object the DELETE handler assembles from the
parsed body: before goes through truthiness then new Date (the runtime's
date parser, passed in as parseDate); level is forwarded unvalidated. -/
def parsedDeleteOpts (parseDate : String → Int) (req : ApiRequest) :
    DeleteManyOptions :=
  let body :=
    match req.jsonBody with
    | Except.ok b => b
    | Except.error _ => {}
  { before :=
      match orNull body.before with
      | some s => some (parseDate s)
      | none => none
    level := body.level }

/-- The DELETE handler of createLogAPIHandlers (src/api/index.ts):
authorization first, then the initialization check, then body parsing
with the catch-to-empty-object fallback, then adapter.deleteMany, and a
{deleted: count} JSON response (a rejected deleteMany becomes a generic
500). Also returns the list of deleteMany calls made. -/
def handleDeleteMany (isAuth : ApiRequest → Bool) (parseDate : String → Int)
    (st : Option ErrorLoggerConfig) (req : ApiRequest) :
    ApiResponse × List DeleteManyOptions :=
  if !(isAuth req) then (ApiResponse.unauthorized, [])
  else
    match st with
    | none => (ApiResponse.notInitialized, [])
    | some cfg =>
        let opts := parsedDeleteOpts parseDate req
        match cfg.adapter.deleteMany opts with
        | Except.ok n => (ApiResponse.deletedJson n, [opts])
        | Except.error _ => (ApiResponse.failedDelete, [opts])

/-- The condition fragments of the SQL findMany as a function of the five
presence flags alone: the text the adapter builds mentions which filters
are present (and the dialect placeholders) but never the filter values. -/
def sqlCondsText (d : Dialect)
    (hasLevel hasUser hasSearch hasStart hasEnd : Bool) : List String :=
  let st0 : List String × Nat := ([], 1)
  let st1 := if hasLevel then (st0.1 ++ ["level = " ++ ph d st0.2], st0.2 + 1) else st0
  let st2 := if hasUser then (st1.1 ++ ["user_id = " ++ ph d st1.2], st1.2 + 1) else st1
  let st3 :=
    if hasSearch then
      (st2.1 ++ ["(\n          message ILIKE " ++ ph d st2.2 ++
        " OR\n          stack ILIKE " ++ ph d (st2.2 + 1) ++
        " OR\n          path ILIKE " ++ ph d (st2.2 + 2) ++
        " OR\n          user_email ILIKE " ++ ph d (st2.2 + 3) ++
        "\n        )"], st2.2 + 4)
    else st2
  let st4 := if hasStart then (st3.1 ++ ["created_at >= " ++ ph d st3.2], st3.2 + 1) else st3
  let st5 := if hasEnd then (st4.1 ++ ["created_at <= " ++ ph d st4.2], st4.2 + 1) else st4
  st5.1

/-- The condition fragments built for a QueryOptions value. -/
def sqlCondsOf (d : Dialect) (o : QueryOptions) : List String × List SqlParam :=
  sqlFindManyConds d o.level o.userId o.search o.startDate o.endDate

/-- The WHERE clause built for a QueryOptions value. -/
def sqlWhereOf (d : Dialect) (o : QueryOptions) : String :=
  sqlWhereClause (sqlCondsOf d o).1

/-- The parameter array built for a QueryOptions value. -/
def sqlParamsOf (d : Dialect) (o : QueryOptions) : List SqlParam :=
  (sqlCondsOf d o).2

/-- The ORDER BY column picked by the SQL findMany. -/
def orderColumnOf (o : QueryOptions) : String :=
  match o.orderBy.getD OrderBy.createdAt with
  | .level => "level"
  | .createdAt => "created_at"

/-- The ORDER BY direction picked by the SQL findMany. -/
def orderDirectionOf (o : QueryOptions) : String :=
  (o.order.getD Order.desc).upper

/-- The statement texts a findMany call sends to the executor, in order. -/
def sqlTextsOf (d : Dialect) (t : String) (ex : SQLExecutor) (o : QueryOptions) :
    List String :=
  (sqlFindMany d t ex o).2.map (fun op =>
    match op with
    | SqlOp.query s _ => s
    | SqlOp.execute s _ => s)

/-- Equality of the five row filters of two QueryOptions values. -/
def sameFilters (o o' : QueryOptions) : Prop :=
  o.level = o'.level ∧ o.userId = o'.userId ∧ o.search = o'.search ∧
    o.startDate = o'.startDate ∧ o.endDate = o'.endDate

/-- A concrete stored entry used by concrete-input theorems. -/
def entryA : ErrorLogEntry :=
  { id := "a", level := LogLevel.error, message := "m1", stack := none
    userId := none, userEmail := none, userName := none, path := none
    method := none, userAgent := none, ip := none, metadata := none
    createdAt := 100 }

/-- A second concrete stored entry. -/
def entryB : ErrorLogEntry :=
  { id := "b", level := LogLevel.warn, message := "m2", stack := none
    userId := none, userEmail := none, userName := none, path := none
    method := none, userAgent := none, ip := none, metadata := none
    createdAt := 200 }

/-- A two-row Prisma table. -/
def prismaDb2 : PrismaDb := { rows := [entryA, entryB] }

/-- An empty Prisma table. -/
def prismaDb0 : PrismaDb := { rows := [] }

/-- A two-row Drizzle table. -/
def drizzleDb2 : DrizzleDb := { rows := [entryA, entryB] }

/-- A deterministic completion of an entry input, standing in for a
backend that persists exactly what it is given. -/
def entryOf (i : EntryInput) : ErrorLogEntry :=
  { id := "id-1", level := i.level, message := i.message, stack := i.stack
    userId := i.userId, userEmail := i.userEmail, userName := i.userName
    path := i.path, method := i.method, userAgent := i.userAgent
    ip := i.ip, metadata := i.metadata, createdAt := 0 }

/-- A storage adapter whose create always succeeds. -/
def storOk : StorageModel :=
  { create := fun i => Except.ok (entryOf i)
    deleteMany := fun _ => Except.ok 0 }

/-- A storage adapter whose create always rejects. -/
def storFail : StorageModel :=
  { create := fun _ => Except.error "db down"
    deleteMany := fun _ => Except.ok 0 }

/-- A configuration with a failing storage backend. -/
def cfgFail : ErrorLoggerConfig := { adapter := storFail }

/-- An auth adapter whose getUser rejects. -/
def auFail : AuthAdapterModel := { getUser := Except.error "Auth failed" }

/-- A configuration whose auth adapter rejects and whose storage works. -/
def cfgAuthFail : ErrorLoggerConfig :=
  { adapter := storOk, authAdapter := some auFail }

/-- A configuration with a levels allow-list of [error] only. -/
def cfgLevels : ErrorLoggerConfig :=
  { adapter := storOk, levels := some [LogLevel.error] }

/-- A concrete user for withUser calls. -/
def user0 : JsUser := { id := "user-1" }

/-- An executor stub answering every query with no rows. -/
def exStub : SQLExecutor :=
  { query := fun _ _ => [], execute := fun _ _ => 0 }

/-- A configuration whose deleteMany reports seven affected rows. -/
def cfgDel7 : ErrorLoggerConfig :=
  { adapter :=
      { create := fun i => Except.ok (entryOf i)
        deleteMany := fun _ => Except.ok 7 } }

/-- A request whose JSON body fails to parse. -/
def reqBadBody : ApiRequest := { jsonBody := Except.error "bad json" }

/-- An authorization predicate accepting every request. -/
def isAuthTrue : ApiRequest → Bool := fun _ => true

/-- A date parser stub mapping every string to epoch zero. -/
def parseDate0 : String → Int := fun _ => 0

/-- A stub web request for instantiating request-bound variants. -/
def rStub : JsRequest := { urlPathname := "/", method := "GET", headers := [] }

/-- Claim C1: calling deleteMany with neither the before nor the level
filter performs zero deletions and returns 0 for every adapter. The raw
SQL and Drizzle adapters satisfy this (0 returned, no statement issued,
table untouched), but the Prisma adapter forwards an empty where object,
which deletes every row and returns the full count: on a two-row table it
deletes both rows and returns 2. -/
theorem claim_C1_unfiltered_deleteMany :
    prismaDeleteMany {} prismaDb2 = (2, { rows := [] }) ∧
    (∀ (d : Dialect) (t : String) (ex : SQLExecutor),
      sqlDeleteMany d t ex {} = (0, [])) ∧
    (∀ db : DrizzleDb, drizzleDeleteMany {} db = (0, db, [])) := by
  refine ⟨rfl, fun d t ex => rfl, fun db => rfl⟩

/-- Claim C2: delete(id) on a non-existent id must not throw for every
adapter. The Drizzle adapter issues a delete-where that affects zero rows
and the raw-SQL adapter issues a single DELETE statement and completes,
but the Prisma adapter propagates the Prisma client's record-not-found
rejection when the id does not exist. -/
theorem claim_C2_missing_id_deletion :
    prismaDeleteOne "missing-id" prismaDb2 =
      Except.error "Record to delete does not exist." ∧
    drizzleDeleteOne "missing-id" drizzleDb2 =
      (drizzleDb2, [DrizzleOp.deleteWhere (DCond.eqc DCol.id "missing-id")]) ∧
    (∀ (d : Dialect) (t : String) (ex : SQLExecutor) (id : String),
      sqlDeleteOne d t ex id =
        ((), [SqlOp.execute ("DELETE FROM " ++ t ++ " WHERE id = " ++ ph d 1)
          [SqlParam.str id]])) := by
  refine ⟨rfl, rfl, fun d t ex id => rfl⟩

/-- Claim C5: while the facade is uninitialized, every logging call is
rejected carrying the descriptive not-initialized error (the log-routed
variants as a failure result, the withUser variants as a propagated
error) and no storage adapter call is made (empty create trace). -/
theorem claim_C5_uninitialized_rejects :
    ∀ (msg : String) (er : Option JsError) (c : Option RequestContext)
      (r : JsRequest) (md : Option Metadata) (u : JsUser),
      errorLoggerError none msg er c =
        ({ success := false, entry := none, error := some initErrMsg }, []) ∧
      errorLoggerWarn none msg er c =
        ({ success := false, entry := none, error := some initErrMsg }, []) ∧
      errorLoggerInfo none msg c =
        ({ success := false, entry := none, error := some initErrMsg }, []) ∧
      errorLoggerDebug none msg c =
        ({ success := false, entry := none, error := some initErrMsg }, []) ∧
      fromRequestError none r msg er md =
        ({ success := false, entry := none, error := some initErrMsg }, []) ∧
      fromRequestWarn none r msg md =
        ({ success := false, entry := none, error := some initErrMsg }, []) ∧
      fromRequestInfo none r msg md =
        ({ success := false, entry := none, error := some initErrMsg }, []) ∧
      fromRequestDebug none r msg md =
        ({ success := false, entry := none, error := some initErrMsg }, []) ∧
      withUserError none u msg er c = Except.error initErrMsg ∧
      withUserWarn none u msg c = Except.error initErrMsg ∧
      withUserInfo none u msg c = Except.error initErrMsg := by
  intro msg er c r md u
  exact ⟨rfl, rfl, rfl, rfl, rfl, rfl, rfl, rfl, rfl, rfl, rfl⟩

/-- Claim C8: a findById call through the SQL adapter constructed with
the postgres dialect issues one query whose text contains the $1
placeholder, while the mysql and sqlite dialects issue one query whose
text contains the ? placeholder. -/
theorem claim_C8_dialect_placeholders :
    ∀ (t : String) (ex : SQLExecutor) (id : String),
      (∃ q params, (sqlFindById Dialect.postgres t ex id).2 =
          [SqlOp.query q params] ∧ "$1".data <:+: q.data) ∧
      (∃ q params, (sqlFindById Dialect.mysql t ex id).2 =
          [SqlOp.query q params] ∧ "?".data <:+: q.data) ∧
      (∃ q params, (sqlFindById Dialect.sqlite t ex id).2 =
          [SqlOp.query q params] ∧ "?".data <:+: q.data) := by
  intro t ex id
  refine ⟨⟨_, _, rfl, ("SELECT * FROM " ++ t ++ " WHERE id = ").data, [], ?_⟩,
    ⟨_, _, rfl, ("SELECT * FROM " ++ t ++ " WHERE id = ").data, [], ?_⟩,
    ⟨_, _, rfl, ("SELECT * FROM " ++ t ++ " WHERE id = ").data, [], ?_⟩⟩ <;>
    simp [String.data_append, ph, List.append_assoc]
  rfl

/-- Claim C4: for every logging call through the facade (direct,
request-bound, and withUser variants), a rejection from the storage
adapter's create is caught and converted into a returned
success:false/error:message result; none of these calls propagates the
create failure as an exception (the log-routed variants return a plain
result, the withUser variants return Except.ok). -/
theorem claim_C4_create_failure_contained :
    (∀ (cfg : ErrorLoggerConfig) (msg : String) (er : Option JsError)
        (c : Option RequestContext) (m : String),
      levelAllowed cfg LogLevel.error = true →
      cfg.adapter.create (assembleEntry LogLevel.error msg er (resolveUser cfg) c) =
        Except.error m →
      errorLoggerError (some cfg) msg er c =
        ({ success := false, entry := none, error := some m },
          [assembleEntry LogLevel.error msg er (resolveUser cfg) c])) ∧
    (∀ (cfg : ErrorLoggerConfig) (msg : String) (er : Option JsError)
        (c : Option RequestContext) (m : String),
      levelAllowed cfg LogLevel.warn = true →
      cfg.adapter.create (assembleEntry LogLevel.warn msg er (resolveUser cfg) c) =
        Except.error m →
      errorLoggerWarn (some cfg) msg er c =
        ({ success := false, entry := none, error := some m },
          [assembleEntry LogLevel.warn msg er (resolveUser cfg) c])) ∧
    (∀ (cfg : ErrorLoggerConfig) (msg : String) (c : Option RequestContext)
        (m : String),
      levelAllowed cfg LogLevel.info = true →
      cfg.adapter.create (assembleEntry LogLevel.info msg none (resolveUser cfg) c) =
        Except.error m →
      errorLoggerInfo (some cfg) msg c =
        ({ success := false, entry := none, error := some m },
          [assembleEntry LogLevel.info msg none (resolveUser cfg) c])) ∧
    (∀ (cfg : ErrorLoggerConfig) (msg : String) (c : Option RequestContext)
        (m : String),
      levelAllowed cfg LogLevel.debug = true →
      cfg.adapter.create (assembleEntry LogLevel.debug msg none (resolveUser cfg) c) =
        Except.error m →
      errorLoggerDebug (some cfg) msg c =
        ({ success := false, entry := none, error := some m },
          [assembleEntry LogLevel.debug msg none (resolveUser cfg) c])) ∧
    (∀ (cfg : ErrorLoggerConfig) (r : JsRequest) (msg : String)
        (er : Option JsError) (md : Option Metadata) (m : String),
      levelAllowed cfg LogLevel.error = true →
      cfg.adapter.create (assembleEntry LogLevel.error msg er (resolveUser cfg)
        (some (requestContextWith r md))) = Except.error m →
      fromRequestError (some cfg) r msg er md =
        ({ success := false, entry := none, error := some m },
          [assembleEntry LogLevel.error msg er (resolveUser cfg)
            (some (requestContextWith r md))])) ∧
    (∀ (cfg : ErrorLoggerConfig) (r : JsRequest) (msg : String)
        (md : Option Metadata) (m : String),
      levelAllowed cfg LogLevel.warn = true →
      cfg.adapter.create (assembleEntry LogLevel.warn msg none (resolveUser cfg)
        (some (requestContextWith r md))) = Except.error m →
      fromRequestWarn (some cfg) r msg md =
        ({ success := false, entry := none, error := some m },
          [assembleEntry LogLevel.warn msg none (resolveUser cfg)
            (some (requestContextWith r md))])) ∧
    (∀ (cfg : ErrorLoggerConfig) (r : JsRequest) (msg : String)
        (md : Option Metadata) (m : String),
      levelAllowed cfg LogLevel.info = true →
      cfg.adapter.create (assembleEntry LogLevel.info msg none (resolveUser cfg)
        (some (requestContextWith r md))) = Except.error m →
      fromRequestInfo (some cfg) r msg md =
        ({ success := false, entry := none, error := some m },
          [assembleEntry LogLevel.info msg none (resolveUser cfg)
            (some (requestContextWith r md))])) ∧
    (∀ (cfg : ErrorLoggerConfig) (r : JsRequest) (msg : String)
        (md : Option Metadata) (m : String),
      levelAllowed cfg LogLevel.debug = true →
      cfg.adapter.create (assembleEntry LogLevel.debug msg none (resolveUser cfg)
        (some (requestContextWith r md))) = Except.error m →
      fromRequestDebug (some cfg) r msg md =
        ({ success := false, entry := none, error := some m },
          [assembleEntry LogLevel.debug msg none (resolveUser cfg)
            (some (requestContextWith r md))])) ∧
    (∀ (cfg : ErrorLoggerConfig) (u : JsUser) (msg : String)
        (er : Option JsError) (c : Option RequestContext) (m : String),
      cfg.adapter.create (assembleWithUser LogLevel.error msg er u c) =
        Except.error m →
      withUserError (some cfg) u msg er c =
        Except.ok ({ success := false, entry := none, error := some m },
          [assembleWithUser LogLevel.error msg er u c])) ∧
    (∀ (cfg : ErrorLoggerConfig) (u : JsUser) (msg : String)
        (c : Option RequestContext) (m : String),
      cfg.adapter.create (assembleWithUser LogLevel.warn msg none u c) =
        Except.error m →
      withUserWarn (some cfg) u msg c =
        Except.ok ({ success := false, entry := none, error := some m },
          [assembleWithUser LogLevel.warn msg none u c])) ∧
    (∀ (cfg : ErrorLoggerConfig) (u : JsUser) (msg : String)
        (c : Option RequestContext) (m : String),
      cfg.adapter.create (assembleWithUser LogLevel.info msg none u c) =
        Except.error m →
      withUserInfo (some cfg) u msg c =
        Except.ok ({ success := false, entry := none, error := some m },
          [assembleWithUser LogLevel.info msg none u c])) := by
  refine ⟨?_, ?_, ?_, ?_, ?_, ?_, ?_, ?_, ?_, ?_, ?_⟩
  · intro cfg msg er c m h1 h2
    simp [errorLoggerError, log, h1, h2]
  · intro cfg msg er c m h1 h2
    simp [errorLoggerWarn, log, h1, h2]
  · intro cfg msg c m h1 h2
    simp [errorLoggerInfo, log, h1, h2]
  · intro cfg msg c m h1 h2
    simp [errorLoggerDebug, log, h1, h2]
  · intro cfg r msg er md m h1 h2
    simp [fromRequestError, log, h1, h2]
  · intro cfg r msg md m h1 h2
    simp [fromRequestWarn, log, h1, h2]
  · intro cfg r msg md m h1 h2
    simp [fromRequestInfo, log, h1, h2]
  · intro cfg r msg md m h1 h2
    simp [fromRequestDebug, log, h1, h2]
  · intro cfg u msg er c m h
    simp [withUserError, h]
  · intro cfg u msg c m h
    simp [withUserWarn, h]
  · intro cfg u msg c m h
    simp [withUserInfo, h]

/-- Witness for claim C4 at a concrete failing adapter: both a direct
call and a withUser call return the failure result carrying the
adapter's message. -/
theorem claim_C4_witness :
    errorLoggerError (some cfgFail) "boom" none none =
      ({ success := false, entry := none, error := some "db down" },
        [assembleEntry LogLevel.error "boom" none (resolveUser cfgFail) none]) ∧
    withUserError (some cfgFail) user0 "boom" none none =
      Except.ok ({ success := false, entry := none, error := some "db down" },
        [assembleWithUser LogLevel.error "boom" none user0 none]) :=
  ⟨claim_C4_create_failure_contained.1 cfgFail "boom" none none "db down" rfl rfl,
    claim_C4_create_failure_contained.2.2.2.2.2.2.2.2.1 cfgFail user0 "boom"
      none none "db down" rfl⟩

/-- Claim C6: when the configured auth adapter's getUser rejects during a
log() call, the failure is swallowed: the entry is still stored via the
storage adapter with userId, userEmail and userName all null, and the
call returns success:true with the stored entry. -/
theorem claim_C6_auth_failure_swallowed :
    ∀ (cfg : ErrorLoggerConfig) (au : AuthAdapterModel) (s : String)
      (f : EntryInput → ErrorLogEntry) (lvl : LogLevel) (msg : String)
      (er : Option JsError) (c : Option RequestContext),
      cfg.authAdapter = some au →
      au.getUser = Except.error s →
      cfg.adapter.create = (fun i => Except.ok (f i)) →
      levelAllowed cfg lvl = true →
      log (some cfg) lvl msg er c =
        ({ success := true,
           entry := some (f (assembleEntry lvl msg er none c)),
           error := none },
          [assembleEntry lvl msg er none c]) ∧
      (assembleEntry lvl msg er none c).userId = none ∧
      (assembleEntry lvl msg er none c).userEmail = none ∧
      (assembleEntry lvl msg er none c).userName = none := by
  intro cfg au s f lvl msg er c h1 h2 h3 h4
  have hr : resolveUser cfg = none := by
    simp [resolveUser, h1, h2]
  refine ⟨?_, rfl, rfl, rfl⟩
  simp [log, h4, hr, h3]

/-- Witness for claim C6 at a concrete configuration whose auth adapter
rejects and whose storage succeeds. -/
theorem claim_C6_witness :
    log (some cfgAuthFail) LogLevel.error "boom" none none =
      ({ success := true,
         entry := some (entryOf (assembleEntry LogLevel.error "boom" none none none)),
         error := none },
        [assembleEntry LogLevel.error "boom" none none none]) ∧
    (assembleEntry LogLevel.error "boom" none none none).userId = none ∧
    (assembleEntry LogLevel.error "boom" none none none).userEmail = none ∧
    (assembleEntry LogLevel.error "boom" none none none).userName = none :=
  claim_C6_auth_failure_swallowed cfgAuthFail auFail "Auth failed" entryOf
    LogLevel.error "boom" none none rfl rfl rfl rfl

/-- Counterexample to claim C7 as stated: with levels [error] configured,
a withUser(...).info call — whose level info is not in the allow-list —
still invokes the storage adapter's create (non-empty create trace), so
the a-logging-call-performs-no-storage-write part of the claim is false
for the withUser calling convention. -/
theorem claim_C7_counterexample :
    cfgLevels.levels = some [LogLevel.error] ∧
    ([LogLevel.error].contains LogLevel.info = false) ∧
    withUserInfo (some cfgLevels) user0 "boom" none =
      Except.ok ({ success := true,
                   entry := some (entryOf (assembleWithUser LogLevel.info "boom" none user0 none)),
                   error := none },
        [assembleWithUser LogLevel.info "boom" none user0 none]) ∧
    [assembleWithUser LogLevel.info "boom" none user0 none] ≠
      ([] : List EntryInput) :=
  ⟨rfl, rfl, rfl, List.cons_ne_nil _ _⟩

/-- Claim C7 as amended: when a levels allow-list is configured and the
call's level is not in it, the direct and request-bound logging calls —
the ones routed through the internal log() — return success:true and
perform no storage write; the withUser variants bypass the allow-list and
always attempt the write. -/
theorem claim_C7_allowlist_noop_amended :
    ∀ (cfg : ErrorLoggerConfig) (ls : List LogLevel) (msg : String)
      (er : Option JsError) (c : Option RequestContext) (r : JsRequest)
      (md : Option Metadata),
      cfg.levels = some ls →
      (ls.contains LogLevel.error = false →
        errorLoggerError (some cfg) msg er c =
          ({ success := true, entry := none, error := none }, [])) ∧
      (ls.contains LogLevel.warn = false →
        errorLoggerWarn (some cfg) msg er c =
          ({ success := true, entry := none, error := none }, [])) ∧
      (ls.contains LogLevel.info = false →
        errorLoggerInfo (some cfg) msg c =
          ({ success := true, entry := none, error := none }, [])) ∧
      (ls.contains LogLevel.debug = false →
        errorLoggerDebug (some cfg) msg c =
          ({ success := true, entry := none, error := none }, [])) ∧
      (ls.contains LogLevel.error = false →
        fromRequestError (some cfg) r msg er md =
          ({ success := true, entry := none, error := none }, [])) ∧
      (ls.contains LogLevel.warn = false →
        fromRequestWarn (some cfg) r msg md =
          ({ success := true, entry := none, error := none }, [])) ∧
      (ls.contains LogLevel.info = false →
        fromRequestInfo (some cfg) r msg md =
          ({ success := true, entry := none, error := none }, [])) ∧
      (ls.contains LogLevel.debug = false →
        fromRequestDebug (some cfg) r msg md =
          ({ success := true, entry := none, error := none }, [])) := by
  intro cfg ls msg er c r md hcfg
  refine ⟨?_, ?_, ?_, ?_, ?_, ?_, ?_, ?_⟩ <;> intro h <;>
    simp [errorLoggerError, errorLoggerWarn, errorLoggerInfo, errorLoggerDebug,
      fromRequestError, fromRequestWarn, fromRequestInfo, fromRequestDebug,
      log, levelAllowed, hcfg, h] <;>
    (intro hmem; simp at h; exact absurd hmem h)

/-- Witness for the amended claim C7 at the concrete allow-list [error]:
an info call is a successful no-op. -/
theorem claim_C7_witness :
    errorLoggerInfo (some cfgLevels) "boom" none =
      ({ success := true, entry := none, error := none }, []) :=
  (claim_C7_allowlist_noop_amended cfgLevels [LogLevel.error] "boom" none none
    rStub none rfl).2.2.1 rfl

/-- Claim C3: for every adapter, findMany's total equals the count of
rows matching the level/userId/search/date filters alone and never
changes when limit or page (or the sort) change with filters fixed. For
the Prisma and Drizzle models the total is proved equal to the count of
rows matching the filter predicate the adapter builds; for the raw-SQL
adapter the COUNT round trip depends only on the filters, so with the
same executor the total is unchanged. -/
theorem claim_C3_total_independent_of_pagination :
    (∀ (o : QueryOptions) (db : PrismaDb),
      (prismaFindMany o db).total =
        ((db.rows.filter (prismaMatches (buildPrismaWhere o.level o.userId
          o.search o.startDate o.endDate))).length : Int)) ∧
    (∀ (o o' : QueryOptions) (db : PrismaDb), sameFilters o o' →
      (prismaFindMany o db).total = (prismaFindMany o' db).total) ∧
    (∀ (o : QueryOptions) (db : DrizzleDb),
      (drizzleFindMany o db).total =
        ((db.rows.filter (fun e => evalDAll e (drizzleFindManyConds o.level
          o.userId o.search o.startDate o.endDate))).length : Int)) ∧
    (∀ (o o' : QueryOptions) (db : DrizzleDb), sameFilters o o' →
      (drizzleFindMany o db).total = (drizzleFindMany o' db).total) ∧
    (∀ (d : Dialect) (t : String) (ex : SQLExecutor) (o o' : QueryOptions),
      sameFilters o o' →
      (sqlFindMany d t ex o).1.total = (sqlFindMany d t ex o').1.total) := by
  refine ⟨?_, ?_, ?_, ?_, ?_⟩
  · intro o db
    rfl
  · intro o o' db h
    obtain ⟨h1, h2, h3, h4, h5⟩ := h
    simp only [prismaFindMany, prismaClientCount, h1, h2, h3, h4, h5]
  · intro o db
    simp only [drizzleFindMany, drizzleClientCount]
    by_cases h : 0 < (drizzleFindManyConds o.level o.userId o.search
      o.startDate o.endDate).length
    · simp only [h, gt_iff_lt, if_pos, evalD]
    · have hc : drizzleFindManyConds o.level o.userId o.search o.startDate
          o.endDate = [] := by
        cases hh : drizzleFindManyConds o.level o.userId o.search o.startDate
          o.endDate
        · rfl
        · rw [hh] at h
          simp at h
      simp [h, hc, evalDAll]
  · intro o o' db h
    obtain ⟨h1, h2, h3, h4, h5⟩ := h
    simp only [drizzleFindMany, drizzleClientCount, h1, h2, h3, h4, h5]
  · intro d t ex o o' h
    obtain ⟨h1, h2, h3, h4, h5⟩ := h
    simp only [sqlFindMany, h1, h2, h3, h4, h5]

/-- Witness for claim C3: changing page and limit on a concrete two-row
table (Prisma) and on a concrete executor (raw SQL) leaves total
unchanged. -/
theorem claim_C3_witness :
    (prismaFindMany { page := some 2, limit := some 1 } prismaDb2).total =
      (prismaFindMany {} prismaDb2).total ∧
    (sqlFindMany Dialect.postgres "error_logs" exStub
        { page := some 3, limit := some 10 }).1.total =
      (sqlFindMany Dialect.postgres "error_logs" exStub {}).1.total :=
  ⟨claim_C3_total_independent_of_pagination.2.1 _ _ prismaDb2
      ⟨rfl, rfl, rfl, rfl, rfl⟩,
    claim_C3_total_independent_of_pagination.2.2.2.2 Dialect.postgres
      "error_logs" exStub _ _ ⟨rfl, rfl, rfl, rfl, rfl⟩⟩

/-- Claim C9: the delete-many handler returns {deleted: count} built from
one deleteMany call whose filters are parsed from the JSON body; a
malformed or missing body parses to the empty filter object, and a
well-formed body yields before (truthiness then date parse) and level
forwarded as-is. -/
theorem claim_C9_delete_handler :
    (∀ (isAuth : ApiRequest → Bool) (parseDate : String → Int)
        (cfg : ErrorLoggerConfig) (req : ApiRequest) (n : Int),
      isAuth req = true →
      cfg.adapter.deleteMany (parsedDeleteOpts parseDate req) = Except.ok n →
      handleDeleteMany isAuth parseDate (some cfg) req =
        (ApiResponse.deletedJson n, [parsedDeleteOpts parseDate req])) ∧
    (∀ (parseDate : String → Int) (req : ApiRequest) (s : String),
      req.jsonBody = Except.error s →
      parsedDeleteOpts parseDate req = {}) ∧
    (∀ (parseDate : String → Int) (req : ApiRequest) (b : DeleteBody),
      req.jsonBody = Except.ok b →
      parsedDeleteOpts parseDate req =
        { before := (orNull b.before).map parseDate, level := b.level }) := by
  refine ⟨?_, ?_, ?_⟩
  · intro isAuth parseDate cfg req n h1 h2
    simp [handleDeleteMany, h1, h2]
  · intro parseDate req s h
    simp [parsedDeleteOpts, h, orNull]
  · intro parseDate req b h
    simp only [parsedDeleteOpts, h]
    cases horNull : orNull b.before <;> simp [horNull]

/-- Witness for claim C9: a malformed body parses to the empty filter
object and the handler responds with the adapter's count. -/
theorem claim_C9_witness :
    handleDeleteMany isAuthTrue parseDate0 (some cfgDel7) reqBadBody =
      (ApiResponse.deletedJson 7, [parsedDeleteOpts parseDate0 reqBadBody]) ∧
    parsedDeleteOpts parseDate0 reqBadBody = {} :=
  ⟨claim_C9_delete_handler.1 isAuthTrue parseDate0 cfgDel7 reqBadBody 7 rfl rfl,
    claim_C9_delete_handler.2.1 parseDate0 reqBadBody "bad json" rfl⟩

/-- The condition texts built by the SQL findMany depend only on which
filters pass their truthiness guards, never on the filter values. -/
theorem sqlConds_text_shape (d : Dialect) (l u s : Option String)
    (sd ed : Option Int) :
    (sqlFindManyConds d l u s sd ed).1 =
      sqlCondsText d (orNull l).isSome (orNull u).isSome (orNull s).isSome
        sd.isSome ed.isSome := by
  simp only [sqlFindManyConds, sqlCondsText]
  cases orNull l <;> cases orNull u <;> cases orNull s <;> cases sd <;>
    cases ed <;> rfl

/-- Claim C10: the SELECT built by the raw-SQL findMany interpolates the
numeric limit and the computed offset (page minus 1, times limit) into
the statement text as literals, while the filter values travel only in
the parameter array: the issued texts are a function of the filter
presence flags, pagination and ordering alone, the LIMIT/OFFSET segment
appears in the text with the numbers rendered inline, and the parameter
array is exactly the list of filter values. -/
theorem claim_C10_literal_pagination_params :
    (∀ (d : Dialect) (t : String) (ex : SQLExecutor) (o : QueryOptions),
      sqlTextsOf d t ex o =
        [sqlFindManySelectText t
            (sqlWhereClause (sqlCondsText d (orNull o.level).isSome
              (orNull o.userId).isSome (orNull o.search).isSome
              o.startDate.isSome o.endDate.isSome))
            (orderColumnOf o) (orderDirectionOf o)
            (o.limit.getD 50) ((o.page.getD 1 - 1) * o.limit.getD 50),
          "SELECT COUNT(*) as count FROM " ++ t ++ " " ++
            sqlWhereClause (sqlCondsText d (orNull o.level).isSome
              (orNull o.userId).isSome (orNull o.search).isSome
              o.startDate.isSome o.endDate.isSome)]) ∧
    (∀ (t wc oc od : String) (limit offset : Int),
      ("\n        LIMIT " ++ toString limit ++ " OFFSET " ++ toString offset ++
          "\n      ").data <:+:
        (sqlFindManySelectText t wc oc od limit offset).data) ∧
    (∀ (d : Dialect) (o : QueryOptions),
      sqlParamsOf d o =
        (orNull o.level).toList.map SqlParam.str ++
        (orNull o.userId).toList.map SqlParam.str ++
        (orNull o.search).toList.flatMap
          (fun s => List.replicate 4 (SqlParam.str ("%" ++ s ++ "%"))) ++
        o.startDate.toList.map (fun x => SqlParam.str (jsToISOString x)) ++
        o.endDate.toList.map (fun x => SqlParam.str (jsToISOString x))) := by
  refine ⟨?_, ?_, ?_⟩
  · intro d t ex o
    simp only [sqlTextsOf, sqlFindMany, List.map, orderColumnOf,
      orderDirectionOf, ← sqlConds_text_shape]
  · intro t wc oc od limit offset
    refine ⟨("\n        SELECT * FROM " ++ t ++ "\n        " ++ wc ++
      "\n        ORDER BY " ++ oc ++ " " ++ od).data, [], ?_⟩
    simp [sqlFindManySelectText, String.data_append, List.append_assoc]
  · intro d o
    simp only [sqlParamsOf, sqlCondsOf, sqlFindManyConds]
    cases orNull o.level <;> cases orNull o.userId <;>
      cases orNull o.search <;> cases o.startDate <;> cases o.endDate <;> rfl
